import Mathlib

/-!
Shallow embedding of the exercise-cache / spaced-repetition engine of the
`jules-babbel` German-grammar trainer (source: `src/main.go`).

The Go source contains two storage backends (Airtable and SQLite) with two
copies of every engine function; the engine logic (hashing, eligibility,
cache-fill, batch selection, view updates, prompt-version pruning) is
identical in both, and the definitions below embed that shared logic.

Modelling conventions:
* `time.Time` values are modelled as exact rationals counting seconds;
  `time.Duration.Hours()/24` becomes exact division by `86400`.  The Go code
  performs this arithmetic in `float64`; the rational model is the exact-real
  reading of the same expressions.
* The content store is a list of rows; SQL/Airtable filtered queries become
  `List.filter`.
* The external generative service, the JSON parser for its reply, the
  random shuffle, and fresh-ID generation are injected as explicit
  parameters, so that each code path is a total function of its inputs.
-/

namespace SHA256

/-- The word modulus `2^32` of SHA-256. -/
def w32 : Nat := 2 ^ 32

/-- Right rotation of a 32-bit word (value assumed `< 2^32`). -/
def rotr (n x : Nat) : Nat := ((x >>> n) ||| (x <<< (32 - n))) % w32

/-- Bitwise complement of a 32-bit word. -/
def bnot (x : Nat) : Nat := x ^^^ (w32 - 1)

/-- SHA-256 `Ch` function. -/
def ch (e f g : Nat) : Nat := (e &&& f) ^^^ (bnot e &&& g)

/-- SHA-256 `Maj` function. -/
def maj (a b c : Nat) : Nat := (a &&& b) ^^^ (a &&& c) ^^^ (b &&& c)

/-- SHA-256 big sigma 0. -/
def bigSigma0 (x : Nat) : Nat := rotr 2 x ^^^ rotr 13 x ^^^ rotr 22 x

/-- SHA-256 big sigma 1. -/
def bigSigma1 (x : Nat) : Nat := rotr 6 x ^^^ rotr 11 x ^^^ rotr 25 x

/-- SHA-256 small sigma 0. -/
def smallSigma0 (x : Nat) : Nat := rotr 7 x ^^^ rotr 18 x ^^^ (x >>> 3)

/-- SHA-256 small sigma 1. -/
def smallSigma1 (x : Nat) : Nat := rotr 17 x ^^^ rotr 19 x ^^^ (x >>> 10)

/-- The 64 SHA-256 round constants. -/
def K : List Nat :=
  [1116352408, 1899447441, 3049323471, 3921009573, 961987163,
   1508970993, 2453635748, 2870763221, 3624381080, 310598401,
   607225278, 1426881987, 1925078388, 2162078206, 2614888103,
   3248222580, 3835390401, 4022224774, 264347078, 604807628,
   770255983, 1249150122, 1555081692, 1996064986, 2554220882,
   2821834349, 2952996808, 3210313671, 3336571891, 3584528711,
   113926993, 338241895, 666307205, 773529912, 1294757372,
   1396182291, 1695183700, 1986661051, 2177026350, 2456956037,
   2730485921, 2820302411, 3259730800, 3345764771, 3516065817,
   3600352804, 4094571909, 275423344, 430227734, 506948616,
   659060556, 883997877, 958139571, 1322822218, 1537002063,
   1747873779, 1955562222, 2024104815, 2227730452, 2361852424,
   2428436474, 2756734187, 3204031479, 3329325298]

/-- The initial SHA-256 hash state. -/
def H0 : List Nat :=
  [1779033703, 3144134277, 1013904242, 2773480762,
   1359893119, 2600822924, 528734635, 1541459225]

/-- Big-endian byte expansion of `n` into `k` bytes. -/
def toBytesBE (k n : Nat) : List Nat :=
  (List.range k).map (fun i => (n >>> (8 * (k - 1 - i))) % 256)

/-- SHA-256 padding of a byte string: append `0x80`, zero bytes to reach
56 mod 64, then the bit length as an 8-byte big-endian integer. -/
def pad (msg : List Nat) : List Nat :=
  let zeros := (64 - ((msg.length + 9) % 64)) % 64
  msg ++ [0x80] ++ List.replicate zeros 0 ++ toBytesBE 8 (msg.length * 8)

/-- Combine 4 bytes (big-endian) into one 32-bit word. -/
def bytesToWord : List Nat → Nat
  | [b0, b1, b2, b3] => ((b0 * 256 + b1) * 256 + b2) * 256 + b3
  | _ => 0

/-- Fuel-bounded chunking worker: take `k` elements at a time. -/
def chunksAux (k : Nat) : Nat → List Nat → List (List Nat)
  | 0, _ => []
  | _, [] => []
  | fuel + 1, l => (l.take k) :: chunksAux k fuel (l.drop k)

/-- Split a list into chunks of size `k` (structural recursion on a fuel
bound so the definition reduces inside the kernel). -/
def chunks (k : Nat) (l : List Nat) : List (List Nat) :=
  chunksAux k l.length l

/-- Extend the 16 message-schedule words to 64. -/
def extendSchedule (ws : List Nat) : List Nat :=
  (List.range 48).foldl
    (fun ws _ =>
      let n := ws.length
      ws ++ [(smallSigma1 (ws.getD (n - 2) 0) + ws.getD (n - 7) 0 +
              smallSigma0 (ws.getD (n - 15) 0) + ws.getD (n - 16) 0) % w32])
    ws

/-- One compression round. State is `[a,b,c,d,e,f,g,h]`. -/
def round (st : List Nat) (kw : Nat × Nat) : List Nat :=
  match st with
  | [a, b, c, d, e, f, g, h] =>
    let t1 := (h + bigSigma1 e + ch e f g + kw.1 + kw.2) % w32
    let t2 := (bigSigma0 a + maj a b c) % w32
    [(t1 + t2) % w32, a, b, c, (d + t1) % w32, e, f, g]
  | _ => st

/-- Compress one 64-byte block into the running hash state. -/
def compressBlock (hs : List Nat) (block : List Nat) : List Nat :=
  let ws := extendSchedule ((chunks 4 block).map bytesToWord)
  let st := (K.zip ws).foldl (fun st kw => round st (kw.1, kw.2)) hs
  (hs.zip st).map (fun p => (p.1 + p.2) % w32)

/-- The SHA-256 digest of a byte string, as 8 words. -/
def digestWords (msg : List Nat) : List Nat :=
  (chunks 64 (pad msg)).foldl compressBlock H0

/-- Lowercase hex digit. -/
def hexDigit (n : Nat) : Char :=
  "0123456789abcdef".data.getD n '0'

/-- Render one 32-bit word as 8 lowercase hex digits. -/
def wordToHex (n : Nat) : List Char :=
  (List.range 8).map (fun i => hexDigit ((n >>> (4 * (7 - i))) % 16))

/-- Lowercase hex SHA-256 digest of a byte string, mirroring Go's
`hex.EncodeToString(sha256.Sum256(b)[:])`. -/
def sha256Hex (msg : List Nat) : String :=
  ⟨((digestWords msg).map wordToHex).flatten⟩

/-- UTF-8 encoding of one code point, mirroring Go's string-to-byte
conversion `[]byte(s)`. -/
def utf8Char (c : Char) : List Nat :=
  let n := c.toNat
  if n < 0x80 then [n]
  else if n < 0x800 then
    [0xc0 ||| (n >>> 6), 0x80 ||| (n &&& 0x3f)]
  else if n < 0x10000 then
    [0xe0 ||| (n >>> 12), 0x80 ||| ((n >>> 6) &&& 0x3f), 0x80 ||| (n &&& 0x3f)]
  else
    [0xf0 ||| (n >>> 18), 0x80 ||| ((n >>> 12) &&& 0x3f),
     0x80 ||| ((n >>> 6) &&& 0x3f), 0x80 ||| (n &&& 0x3f)]

/-- UTF-8 bytes of a string. -/
def utf8Encode (s : String) : List Nat :=
  (s.data.map utf8Char).flatten

end SHA256

/-! ## Data model (`src/main.go`, type declarations)

`CreatedAt`/`UpdatedAt` timestamps are carried by the Go structs but never
read by the engine logic embedded here, so they are omitted.  `time.Time`
values that the engine does compare (`LastViewed`, `now`) are rationals
counting seconds. -/

/-- Go `type Topic struct` (`src/main.go`). -/
structure Topic where
  id : String
  name : String
  prompt : String
  deriving DecidableEq, Repr

/-- Go `type PromptVersion struct` (`src/main.go`). -/
structure PromptVersion where
  id : String
  topicID : String
  prompt : String
  version : Int
  deriving DecidableEq, Repr

/-- Go `type Exercise struct` (`src/main.go`). -/
structure Exercise where
  id : String
  topicID : String
  promptHash : String
  exerciseJSON : String
  deriving DecidableEq, Repr

/-- Go `type UserExerciseView struct` (`src/main.go`).  `lastViewed` is in
seconds; `repetitionCounter` is a Go `int`. -/
structure UserExerciseView where
  id : String
  userID : String
  exerciseID : String
  lastViewed : ℚ
  repetitionCounter : Int
  deriving DecidableEq, Repr

/-- Go `getPromptHash` (`src/main.go`): lowercase hex SHA-256 of the UTF-8
bytes of the prompt. -/
def getPromptHash (prompt : String) : String :=
  SHA256.sha256Hex (SHA256.utf8Encode prompt)

/-- Go `getExercisesForTopic` (`src/main.go`): the content store query
`WHERE topic_id = ? AND prompt_hash = ?`, with the store modelled as the
list of its exercise rows. -/
def getExercisesForTopic (db : List Exercise) (topicID promptHash : String) :
    List Exercise :=
  db.filter (fun e => e.topicID == topicID && e.promptHash == promptHash)

/-- Loop body of `getEligibleExercisesForSRS` (`src/main.go`): an exercise
is kept when the user has never seen it, or when the fractional days since
the last view reach `repetition_counter²`.  The Go float expression
`now.Sub(view.LastViewed).Hours() / 24` is modelled exactly over the
rationals (seconds divided by 3600, then by 24). -/
def srsEligible (userViews : String → Option UserExerciseView) (now : ℚ)
    (ex : Exercise) : Bool :=
  match userViews ex.id with
  | none => true
  | some view =>
    let daysSinceView : ℚ := (now - view.lastViewed) / 3600 / 24
    let nextReviewInDays : ℚ := ((view.repetitionCounter * view.repetitionCounter : Int) : ℚ)
    decide (nextReviewInDays ≤ daysSinceView)

/-- Go `getEligibleExercisesForSRS` (`src/main.go`).  `userViews` is the map
built by `getUserExerciseViews`, keyed by exercise ID. -/
def getEligibleExercisesForSRS (allExercises : List Exercise)
    (userViews : String → Option UserExerciseView) (now : ℚ) : List Exercise :=
  allExercises.filter (srsEligible userViews now)

/-- Go `getRandomExercises` (`src/main.go`): if at most `count` exercises
exist return them all, otherwise shuffle and take the first `count`.  The
`mrand.Shuffle` call is injected as `shuffle`; theorems assume only that it
permutes its input. -/
def getRandomExercises (shuffle : List Exercise → List Exercise)
    (exercises : List Exercise) (count : Nat) : List Exercise :=
  if exercises.length ≤ count then exercises
  else (shuffle exercises).take count

/-! ## Generation (`generateAndCacheExercises`) -/

/-- The inner `message` object of an OpenAI chat choice. -/
structure ChoiceMessage where
  content : String
  deriving DecidableEq, Repr

/-- One element of `OpenAIResponse.Choices`. -/
structure Choice where
  message : ChoiceMessage
  deriving DecidableEq, Repr

/-- The `Error` object of `OpenAIResponse`. -/
structure APIError where
  message : String
  type : String
  code : String
  deriving DecidableEq, Repr

/-- Go `type OpenAIResponse struct` (`src/main.go`).  A body that
`json.Unmarshal` cannot parse leaves the zero value
`{choices := [], error := none}`, which is representable here. -/
structure OpenAIResponse where
  choices : List Choice
  error : Option APIError
  deriving DecidableEq, Repr

/-- Outcome of `client.Do` on the chat-completions request: transport
error, or an HTTP body decoded into `OpenAIResponse`. -/
inductive CallResult where
  | netError (msg : String)
  | response (resp : OpenAIResponse)
  deriving DecidableEq, Repr

/-- The persistence loop at the end of `generateAndCacheExercises`: each
payload is handed to `createExercise`, which on success stores and returns
a row with a fresh ID and the current prompt hash; a failed insert is
logged and skipped.  `persistId i` is the ID assigned to the `i`-th
payload, or `none` when its insert fails. -/
def cacheNewExercises (topic : Topic) (persistId : Nat → Option String)
    (payloads : List String) : List Exercise :=
  payloads.enum.filterMap fun p =>
    (persistId p.1).map fun newId =>
      { id := newId, topicID := topic.id,
        promptHash := getPromptHash topic.prompt, exerciseJSON := p.2 }

/-- Go `generateAndCacheExercises` (`src/main.go`).  Prompt refinement only
changes the text sent to the service (already folded into `call`) — the
stored hash is of the topic's own prompt.  `parse` stands for
`json.Unmarshal` of the choice content into `{"exercises": [...]}`. -/
def generateAndCacheExercises (topic : Topic) (call : CallResult)
    (parse : String → Option (List String)) (persistId : Nat → Option String) :
    Except String (List Exercise) :=
  match call with
  | .netError msg => .error ("failed to call OpenAI API: " ++ msg)
  | .response resp =>
    match resp.error with
    | some apiErr => .error ("API error: " ++ apiErr.message)
    | none =>
      match resp.choices with
      | [] => .error "received an empty response from OpenAI"
      | choice :: _ =>
        if choice.message.content = "" then
          .error "received an empty response from OpenAI"
        else
          match parse choice.message.content with
          | none => .error "failed to parse exercises from OpenAI response"
          | some payloads => .ok (cacheNewExercises topic persistId payloads)

/-! ## The `/api/exercises` handler (`handleExercises`) -/

/-- One iteration of the view-update loop of `handleExercises`: the
user's existing record with `last_viewed` set to now and the counter
incremented, or a fresh record with counter 1 (the zero-valued new record
after `view.RepetitionCounter++`). -/
def updatedView (userID : String)
    (userViews : String → Option UserExerciseView) (now : ℚ)
    (ex : Exercise) : UserExerciseView :=
  match userViews ex.id with
  | none =>
    { id := "", userID := userID, exerciseID := ex.id,
      lastViewed := now, repetitionCounter := 1 }
  | some view =>
    { view with lastViewed := now, repetitionCounter := view.repetitionCounter + 1 }

/-- The view-update loop of `handleExercises`: one record per exercise of
the final batch. -/
def buildViewsToUpdate (userID : String)
    (userViews : String → Option UserExerciseView) (now : ℚ)
    (finalExercises : List Exercise) : List UserExerciseView :=
  finalExercises.map (updatedView userID userViews now)

/-- Outcome of `handleExercises` on the success path: the served batch,
the view records handed to `updateUserExerciseViews`, and the (logged,
non-fatal) error that upsert returned, if any. -/
structure ExerciseBatchResult where
  batch : List Exercise
  viewsToUpdate : List UserExerciseView
  viewUpdateError : Option String
  deriving DecidableEq, Repr

/-- Go `handleExercises` (`src/main.go`) from the point where the request is
decoded: topic lookup, cache query, guest vs SRS branch, cache-fill,
selection, view update.  `topicResult` is the `getTopic` outcome,
`userID` the cookie identity, `userViews` the `getUserExerciseViews` map,
`viewUpdateErr` the outcome of the `updateUserExerciseViews` upsert. -/
def handleExercises (db : List Exercise) (topicResult : Option Topic)
    (userID : Option String) (userViews : String → Option UserExerciseView)
    (now : ℚ) (shuffle : List Exercise → List Exercise) (call : CallResult)
    (parse : String → Option (List String)) (persistId : Nat → Option String)
    (viewUpdateErr : Option String) : Except String ExerciseBatchResult :=
  match topicResult with
  | none => .error "Topic not found"
  | some topic =>
    let promptHash := getPromptHash topic.prompt
    let allExercises := getExercisesForTopic db topic.id promptHash
    match userID with
    | none =>
      .ok { batch := getRandomExercises shuffle allExercises 10,
            viewsToUpdate := [], viewUpdateError := none }
    | some uid =>
      let eligibleExercises := getEligibleExercisesForSRS allExercises userViews now
      let eligibleStep : Except String (List Exercise) :=
        if eligibleExercises.length < 10 then
          match generateAndCacheExercises topic call parse persistId with
          | .error e => .error ("Failed to generate exercises: " ++ e)
          | .ok newlyGenerated =>
            .ok (getEligibleExercisesForSRS (allExercises ++ newlyGenerated) userViews now)
        else .ok eligibleExercises
      match eligibleStep with
      | .error e => .error e
      | .ok eligible =>
        let finalExercises := getRandomExercises shuffle eligible 10
        .ok { batch := finalExercises,
              viewsToUpdate := buildViewsToUpdate uid userViews now finalExercises,
              viewUpdateError := viewUpdateErr }

/-! ## Topic update and prompt-version pruning (`updateTopic`) -/

/-- The snapshot row built by `addPromptVersion` (`src/main.go`): its
sequence number is one past the last of the version list (which the store
returns ordered by version number ascending), or 1 for the first. -/
def newPromptVersion (versions : List PromptVersion)
    (newId topicID prompt : String) : PromptVersion :=
  { id := newId, topicID := topicID, prompt := prompt,
    version :=
      match versions.getLast? with
      | none => 1
      | some last => last.version + 1 }

/-- Go `addPromptVersion` (`src/main.go`): append the new snapshot. -/
def addPromptVersion (versions : List PromptVersion)
    (newId topicID prompt : String) : List PromptVersion :=
  versions ++ [newPromptVersion versions newId topicID prompt]

/-- The cleanup step of `updateTopic`: when more than 10 versions exist,
delete `versions[:len-10]`, keeping the last 10 of the ascending list. -/
def pruneOldVersions (versions : List PromptVersion) : List PromptVersion :=
  if versions.length > 10 then versions.drop (versions.length - 10)
  else versions

/-- The prompt-version bookkeeping of `updateTopic` (`src/main.go`):
append the new version, then prune to the most recent 10. -/
def updateTopicVersions (versions : List PromptVersion)
    (newId topicID prompt : String) : List PromptVersion :=
  pruneOldVersions (addPromptVersion versions newId topicID prompt)

/-- Well-formedness of the map returned by `getUserExerciseViews uid`
(`src/main.go`): it is built from the rows `WHERE user_id = uid`, keyed by
`views[view.ExerciseID] = view`, so every stored record carries this user's
ID and is keyed by its own exercise ID. -/
def wellFormedViews (uid : String)
    (userViews : String → Option UserExerciseView) : Prop :=
  ∀ id v, userViews id = some v → v.userID = uid ∧ v.exerciseID = id

/-! ## Concrete sample data for closed instances -/

/-- A sample topic. -/
def topic1 : Topic := ⟨"t1", "n1", "p1"⟩

/-- A sample cached exercise. -/
def ex1 : Exercise := ⟨"e1", "t1", "h1", "{}"⟩

/-- A sample view record for `ex1` with the given repetition counter,
last viewed at time 0. -/
def view1 (c : Int) : UserExerciseView := ⟨"v1", "u1", "e1", 0, c⟩

/-- A views map holding exactly one record. -/
def singleView (v : UserExerciseView) : String → Option UserExerciseView :=
  fun i => if i = v.exerciseID then some v else none

/-- Eleven pairwise distinct exercises. -/
def sampleExercises : List Exercise :=
  (List.range 11).map fun i => ⟨"s" ++ toString i, "t1", "h1", "{}"⟩

/-- Eleven prompt versions with ascending sequence numbers 1..11. -/
def sampleVersions : List PromptVersion :=
  (List.range 11).map fun i => ⟨"pv" ++ toString i, "t1", "p", (i : Int) + 1⟩

/-- A second cached exercise, distinct from `ex1`. -/
def ex2 : Exercise := ⟨"e2", "t1", "h1", "{}"⟩

/-- A store of 10 exercises for `topic1`, all under its current prompt
hash. -/
def dbTen : List Exercise :=
  (List.range 10).map fun i =>
    ⟨"c" ++ toString i, topic1.id, getPromptHash topic1.prompt, "{}"⟩

/-! ## Helper lemmas -/

/-- Characterisation of the SRS filter predicate. -/
theorem srsEligible_iff (userViews : String → Option UserExerciseView)
    (now : ℚ) (ex : Exercise) :
    srsEligible userViews now ex = true ↔
      userViews ex.id = none ∨
        ∃ v, userViews ex.id = some v ∧
          ((v.repetitionCounter * v.repetitionCounter : Int) : ℚ) ≤
            (now - v.lastViewed) / 3600 / 24 := by
  unfold srsEligible
  cases h : userViews ex.id with
  | none => simp
  | some v => simp

/-- Membership in the eligible list. -/
theorem mem_getEligible_iff (allExercises : List Exercise)
    (userViews : String → Option UserExerciseView) (now : ℚ) (ex : Exercise) :
    ex ∈ getEligibleExercisesForSRS allExercises userViews now ↔
      ex ∈ allExercises ∧
        (userViews ex.id = none ∨
          ∃ v, userViews ex.id = some v ∧
            ((v.repetitionCounter * v.repetitionCounter : Int) : ℚ) ≤
              (now - v.lastViewed) / 3600 / 24) := by
  rw [getEligibleExercisesForSRS, List.mem_filter, srsEligible_iff]

/-! ## Claims -/

/-- C1: for every cached exercise and authenticated user, the exercise is
eligible iff the user has no view record for it or
`(now - last_viewed)` in fractional days is at least
`repetition_counter²`; in particular with counter 2 and a view 3 days ago
it is not eligible, and at 4 or more days it is. -/
theorem srs_eligibility_rule :
    (∀ (allExercises : List Exercise) (userViews : String → Option UserExerciseView)
        (now : ℚ) (ex : Exercise),
        ex ∈ getEligibleExercisesForSRS allExercises userViews now ↔
          ex ∈ allExercises ∧
            (userViews ex.id = none ∨
              ∃ v, userViews ex.id = some v ∧
                ((v.repetitionCounter * v.repetitionCounter : Int) : ℚ) ≤
                  (now - v.lastViewed) / 3600 / 24)) ∧
    (∀ (userViews : String → Option UserExerciseView) (now : ℚ) (ex : Exercise)
        (v : UserExerciseView), userViews ex.id = some v →
        v.repetitionCounter = 2 → now - v.lastViewed = 3 * 86400 →
        ex ∉ getEligibleExercisesForSRS [ex] userViews now) ∧
    (∀ (userViews : String → Option UserExerciseView) (now : ℚ) (ex : Exercise)
        (v : UserExerciseView) (d : ℚ), userViews ex.id = some v →
        v.repetitionCounter = 2 → now - v.lastViewed = d * 86400 → 4 ≤ d →
        ex ∈ getEligibleExercisesForSRS [ex] userViews now) := by
  refine ⟨mem_getEligible_iff, ?_, ?_⟩
  · intro views now ex v hv hrep ht hmem
    rcases (mem_getEligible_iff [ex] views now ex).mp hmem with ⟨-, hnone | ⟨w, hw, hle⟩⟩
    · rw [hv] at hnone; cases hnone
    · rw [hv, Option.some.injEq] at hw
      subst hw
      rw [hrep, ht] at hle
      norm_num at hle
  · intro views now ex v d hv hrep ht hd
    refine (mem_getEligible_iff [ex] views now ex).mpr
      ⟨List.mem_singleton.mpr rfl, Or.inr ⟨v, hv, ?_⟩⟩
    rw [hrep, ht]
    have h86400 : d * 86400 / 3600 / 24 = d := by ring
    rw [h86400]
    norm_num
    linarith

/-- Witness for C1 at a concrete record: counter 2, viewed 3 days ago is
not served again, viewed 4 days ago is. -/
theorem srs_eligibility_rule_witness :
    ex1 ∉ getEligibleExercisesForSRS [ex1] (singleView (view1 2)) (3 * 86400) ∧
    ex1 ∈ getEligibleExercisesForSRS [ex1] (singleView (view1 2)) (4 * 86400) :=
  ⟨srs_eligibility_rule.2.1 (singleView (view1 2)) (3 * 86400) ex1 (view1 2)
      rfl rfl (by norm_num [view1]),
   srs_eligibility_rule.2.2 (singleView (view1 2)) (4 * 86400) ex1 (view1 2) 4
      rfl rfl (by norm_num [view1]) (le_refl 4)⟩

/-- C10: a view record with `repetition_counter = 0` never blocks an
exercise (threshold `0² = 0` days), provided `last_viewed` is not in the
future; eligibility then coincides with having no record at all. -/
theorem srs_zero_counter_always_eligible :
    (∀ (allExercises : List Exercise) (userViews : String → Option UserExerciseView)
        (now : ℚ) (ex : Exercise) (v : UserExerciseView),
        userViews ex.id = some v → v.repetitionCounter = 0 → v.lastViewed ≤ now →
        (ex ∈ getEligibleExercisesForSRS allExercises userViews now ↔
          ex ∈ allExercises)) ∧
    (∀ (allExercises : List Exercise) (now : ℚ),
        getEligibleExercisesForSRS allExercises (fun _ => none) now = allExercises) := by
  constructor
  · intro all views now ex v hv hrep ht
    rw [mem_getEligible_iff]
    refine ⟨And.left, fun hmem => ⟨hmem, Or.inr ⟨v, hv, ?_⟩⟩⟩
    rw [hrep]
    norm_num
    exact div_nonneg (div_nonneg (sub_nonneg.mpr ht) (by norm_num)) (by norm_num)
  · intro all now
    have h : srsEligible (fun _ => none) now = fun _ => true := rfl
    rw [getEligibleExercisesForSRS, h, List.filter_true]

/-- Witness for C10: counter 0, viewed at this very instant, still served. -/
theorem srs_zero_counter_always_eligible_witness :
    ex1 ∈ getEligibleExercisesForSRS [ex1] (singleView (view1 0)) 0 :=
  (srs_zero_counter_always_eligible.1 [ex1] (singleView (view1 0)) 0 ex1 (view1 0)
      rfl rfl (by norm_num [view1])).mpr (List.mem_singleton.mpr rfl)

/-! ## Shape lemmas for `handleExercises` -/

/-- Unknown topic: the request fails. -/
theorem handleExercises_topic_missing (db : List Exercise)
    (userID : Option String) (userViews : String → Option UserExerciseView)
    (now : ℚ) (shuffle : List Exercise → List Exercise) (call : CallResult)
    (parse : String → Option (List String)) (persistId : Nat → Option String)
    (vErr : Option String) :
    handleExercises db none userID userViews now shuffle call parse persistId vErr =
      .error "Topic not found" := rfl

/-- Guest branch: random pick from the cache, no view bookkeeping. -/
theorem handleExercises_anon (db : List Exercise) (t : Topic)
    (userViews : String → Option UserExerciseView) (now : ℚ)
    (shuffle : List Exercise → List Exercise) (call : CallResult)
    (parse : String → Option (List String)) (persistId : Nat → Option String)
    (vErr : Option String) :
    handleExercises db (some t) none userViews now shuffle call parse persistId vErr =
      .ok { batch := getRandomExercises shuffle
              (getExercisesForTopic db t.id (getPromptHash t.prompt)) 10,
            viewsToUpdate := [], viewUpdateError := none } := rfl

/-- Authenticated branch, cache sufficient: no generation, pick from the
eligible set. -/
theorem handleExercises_auth_enough (db : List Exercise) (t : Topic)
    (uid : String) (userViews : String → Option UserExerciseView) (now : ℚ)
    (shuffle : List Exercise → List Exercise) (call : CallResult)
    (parse : String → Option (List String)) (persistId : Nat → Option String)
    (vErr : Option String)
    (h : ¬ (getEligibleExercisesForSRS
        (getExercisesForTopic db t.id (getPromptHash t.prompt)) userViews now).length < 10) :
    handleExercises db (some t) (some uid) userViews now shuffle call parse persistId vErr =
      .ok { batch := getRandomExercises shuffle
              (getEligibleExercisesForSRS
                (getExercisesForTopic db t.id (getPromptHash t.prompt)) userViews now) 10,
            viewsToUpdate := buildViewsToUpdate uid userViews now
              (getRandomExercises shuffle
                (getEligibleExercisesForSRS
                  (getExercisesForTopic db t.id (getPromptHash t.prompt)) userViews now) 10),
            viewUpdateError := vErr } := by
  unfold handleExercises
  simp only [if_neg h]

/-- Authenticated branch, cache short, generation succeeds: append and
recompute eligibility over the enlarged population. -/
theorem handleExercises_auth_gen_ok (db : List Exercise) (t : Topic)
    (uid : String) (userViews : String → Option UserExerciseView) (now : ℚ)
    (shuffle : List Exercise → List Exercise) (call : CallResult)
    (parse : String → Option (List String)) (persistId : Nat → Option String)
    (vErr : Option String) (newGen : List Exercise)
    (h : (getEligibleExercisesForSRS
        (getExercisesForTopic db t.id (getPromptHash t.prompt)) userViews now).length < 10)
    (hgen : generateAndCacheExercises t call parse persistId = .ok newGen) :
    handleExercises db (some t) (some uid) userViews now shuffle call parse persistId vErr =
      .ok { batch := getRandomExercises shuffle
              (getEligibleExercisesForSRS
                (getExercisesForTopic db t.id (getPromptHash t.prompt) ++ newGen)
                userViews now) 10,
            viewsToUpdate := buildViewsToUpdate uid userViews now
              (getRandomExercises shuffle
                (getEligibleExercisesForSRS
                  (getExercisesForTopic db t.id (getPromptHash t.prompt) ++ newGen)
                  userViews now) 10),
            viewUpdateError := vErr } := by
  unfold handleExercises
  simp only [if_pos h, hgen]

/-- Authenticated branch, cache short, generation fails: the request
fails. -/
theorem handleExercises_auth_gen_err (db : List Exercise) (t : Topic)
    (uid : String) (userViews : String → Option UserExerciseView) (now : ℚ)
    (shuffle : List Exercise → List Exercise) (call : CallResult)
    (parse : String → Option (List String)) (persistId : Nat → Option String)
    (vErr : Option String) (e : String)
    (h : (getEligibleExercisesForSRS
        (getExercisesForTopic db t.id (getPromptHash t.prompt)) userViews now).length < 10)
    (hgen : generateAndCacheExercises t call parse persistId = .error e) :
    handleExercises db (some t) (some uid) userViews now shuffle call parse persistId vErr =
      .error ("Failed to generate exercises: " ++ e) := by
  unfold handleExercises
  simp only [if_pos h, hgen]

/-! ## Properties of `getRandomExercises` -/

/-- When at most `count` exercises exist, all are returned unchanged. -/
theorem getRandomExercises_all (shuffle : List Exercise → List Exercise)
    (l : List Exercise) (count : Nat) (h : l.length ≤ count) :
    getRandomExercises shuffle l count = l := by
  unfold getRandomExercises
  rw [if_pos h]

/-- The batch always has `min count |l|` members (shuffle permutes). -/
theorem getRandomExercises_length (shuffle : List Exercise → List Exercise)
    (hs : ∀ l, (shuffle l).Perm l) (l : List Exercise) (count : Nat) :
    (getRandomExercises shuffle l count).length = min count l.length := by
  unfold getRandomExercises
  by_cases h : l.length ≤ count
  · rw [if_pos h, Nat.min_eq_right h]
  · rw [if_neg h, List.length_take, (hs l).length_eq]

/-- Batch members come from the input list. -/
theorem getRandomExercises_subset (shuffle : List Exercise → List Exercise)
    (hs : ∀ l, (shuffle l).Perm l) (l : List Exercise) (count : Nat) :
    ∀ e ∈ getRandomExercises shuffle l count, e ∈ l := by
  unfold getRandomExercises
  by_cases h : l.length ≤ count
  · rw [if_pos h]; exact fun e he => he
  · rw [if_neg h]
    intro e he
    exact (hs l).mem_iff.mp (List.mem_of_mem_take he)

/-- Selection without replacement: distinct inputs give a distinct batch. -/
theorem getRandomExercises_nodup (shuffle : List Exercise → List Exercise)
    (hs : ∀ l, (shuffle l).Perm l) (l : List Exercise) (count : Nat)
    (hn : l.Nodup) : (getRandomExercises shuffle l count).Nodup := by
  unfold getRandomExercises
  by_cases h : l.length ≤ count
  · rw [if_pos h]; exact hn
  · rw [if_neg h]
    exact List.Nodup.sublist (List.take_sublist count (shuffle l))
      ((hs l).nodup_iff.mpr hn)

/-- C5: the returned batch has exactly `min 10 |eligible|` members; with at
most 10 eligible all are returned, with more than 10 exactly 10 distinct
members of the eligible set are returned (without replacement).  The second
conjunct locates the batch inside `handleExercises`: it is always drawn
from an eligible set computed by `getEligibleExercisesForSRS`. -/
theorem batch_selection_size :
    (∀ (shuffle : List Exercise → List Exercise),
        (∀ l, (shuffle l).Perm l) →
        ∀ exercises : List Exercise,
          (getRandomExercises shuffle exercises 10).length = min 10 exercises.length ∧
          (exercises.length ≤ 10 → getRandomExercises shuffle exercises 10 = exercises) ∧
          (∀ e ∈ getRandomExercises shuffle exercises 10, e ∈ exercises) ∧
          (exercises.Nodup → (getRandomExercises shuffle exercises 10).Nodup)) ∧
    (∀ (db : List Exercise) (t : Topic) (uid : String)
        (userViews : String → Option UserExerciseView) (now : ℚ)
        (shuffle : List Exercise → List Exercise),
        (∀ l, (shuffle l).Perm l) →
        ∀ (call : CallResult) (parse : String → Option (List String))
          (persistId : Nat → Option String) (vErr : Option String)
          (r : ExerciseBatchResult),
          handleExercises db (some t) (some uid) userViews now shuffle call
              parse persistId vErr = .ok r →
          ∃ eligible : List Exercise,
            r.batch.length = min 10 eligible.length ∧
            (eligible = getEligibleExercisesForSRS
                (getExercisesForTopic db t.id (getPromptHash t.prompt)) userViews now ∨
              ∃ newGen, generateAndCacheExercises t call parse persistId = .ok newGen ∧
                eligible = getEligibleExercisesForSRS
                  (getExercisesForTopic db t.id (getPromptHash t.prompt) ++ newGen)
                  userViews now)) := by
  constructor
  · intro shuffle hs exercises
    exact ⟨getRandomExercises_length shuffle hs exercises 10,
           getRandomExercises_all shuffle exercises 10,
           getRandomExercises_subset shuffle hs exercises 10,
           getRandomExercises_nodup shuffle hs exercises 10⟩
  · intro db t uid userViews now shuffle hs call parse persistId vErr r hr
    by_cases h : (getEligibleExercisesForSRS
        (getExercisesForTopic db t.id (getPromptHash t.prompt)) userViews now).length < 10
    · cases hgen : generateAndCacheExercises t call parse persistId with
      | error e =>
        rw [handleExercises_auth_gen_err db t uid userViews now shuffle call
          parse persistId vErr e h hgen] at hr
        cases hr
      | ok newGen =>
        rw [handleExercises_auth_gen_ok db t uid userViews now shuffle call
          parse persistId vErr newGen h hgen] at hr
        cases hr
        exact ⟨_, getRandomExercises_length shuffle hs _ 10,
               Or.inr ⟨newGen, rfl, rfl⟩⟩
    · rw [handleExercises_auth_enough db t uid userViews now shuffle call
        parse persistId vErr h] at hr
      cases hr
      exact ⟨_, getRandomExercises_length shuffle hs _ 10, Or.inl rfl⟩

/-- Witness for C5: 11 distinct cached exercises give a batch of 10; a
single exercise is returned whole; a concrete authenticated run through
`handleExercises` (empty cache, two generated exercises) has batch size
`min 10 2`. -/
theorem batch_selection_size_witness :
    (getRandomExercises id sampleExercises 10).length = min 10 sampleExercises.length ∧
    getRandomExercises id [ex1] 10 = [ex1] ∧
    (getRandomExercises id sampleExercises 10).Nodup ∧
    (∃ eligible : List Exercise,
      (ExerciseBatchResult.mk
        [⟨"n0", topic1.id, getPromptHash topic1.prompt, "x1"⟩,
         ⟨"n1", topic1.id, getPromptHash topic1.prompt, "x2"⟩]
        [⟨"", "u1", "n0", 0, 1⟩, ⟨"", "u1", "n1", 0, 1⟩]
        none).batch.length = min 10 eligible.length ∧
      (eligible = getEligibleExercisesForSRS
          (getExercisesForTopic [] topic1.id (getPromptHash topic1.prompt))
          (fun _ => none) 0 ∨
        ∃ newGen, generateAndCacheExercises topic1
            (CallResult.response ⟨[⟨⟨"c"⟩⟩], none⟩) (fun _ => some ["x1", "x2"])
            (fun i => if i = 0 then some "n0" else some "n1") = .ok newGen ∧
          eligible = getEligibleExercisesForSRS
            (getExercisesForTopic [] topic1.id (getPromptHash topic1.prompt) ++ newGen)
            (fun _ => none) 0)) :=
  ⟨(batch_selection_size.1 id (fun l => List.Perm.refl l) sampleExercises).1,
   (batch_selection_size.1 id (fun l => List.Perm.refl l) [ex1]).2.1 (by decide),
   (batch_selection_size.1 id (fun l => List.Perm.refl l) sampleExercises).2.2.2
     (by decide),
   batch_selection_size.2 [] topic1 "u1" (fun _ => none) 0 id
     (fun l => List.Perm.refl l) (CallResult.response ⟨[⟨⟨"c"⟩⟩], none⟩)
     (fun _ => some ["x1", "x2"]) (fun i => if i = 0 then some "n0" else some "n1")
     none _ rfl⟩

/-! ## More helper lemmas -/

/-- With no view history every cached exercise is eligible. -/
theorem getEligible_no_views (allExercises : List Exercise) (now : ℚ) :
    getEligibleExercisesForSRS allExercises (fun _ => none) now = allExercises := by
  have h : srsEligible (fun _ => none) now = fun _ => true := rfl
  rw [getEligibleExercisesForSRS, h, List.filter_true]

/-- The cache query keeps a list whose rows all match. -/
theorem getExercisesForTopic_of_matching (l : List Exercise) (tid h : String)
    (hall : ∀ e ∈ l, e.topicID = tid ∧ e.promptHash = h) :
    getExercisesForTopic l tid h = l := by
  rw [getExercisesForTopic, List.filter_eq_self]
  intro e he
  rcases hall e he with ⟨h1, h2⟩
  simp [h1, h2]

/-- Every row of `dbTen` matches `topic1`'s ID and current hash. -/
theorem dbTen_matches :
    getExercisesForTopic dbTen topic1.id (getPromptHash topic1.prompt) = dbTen := by
  apply getExercisesForTopic_of_matching
  intro e he
  simp only [dbTen, List.mem_map, List.mem_range] at he
  obtain ⟨i, -, rfl⟩ := he
  exact ⟨rfl, rfl⟩

/-- The store `dbTen` holds 10 rows. -/
theorem dbTen_length : dbTen.length = 10 := by
  simp [dbTen]

/-- C4: anonymous requests never trigger generation — the guest response is
a function of the cache alone (independent of the generative client, the
parser and persistence), equals a random selection of up to 10 cached
exercises, and a cache of at most 10 (even zero) is returned whole with no
error. -/
theorem anonymous_no_generation :
    (∀ (db : List Exercise) (t : Topic)
        (userViews : String → Option UserExerciseView) (now : ℚ)
        (shuffle : List Exercise → List Exercise)
        (c1 c2 : CallResult) (p1 p2 : String → Option (List String))
        (pid1 pid2 : Nat → Option String) (vErr1 vErr2 : Option String),
        handleExercises db (some t) none userViews now shuffle c1 p1 pid1 vErr1 =
          handleExercises db (some t) none userViews now shuffle c2 p2 pid2 vErr2) ∧
    (∀ (db : List Exercise) (t : Topic)
        (userViews : String → Option UserExerciseView) (now : ℚ)
        (shuffle : List Exercise → List Exercise) (call : CallResult)
        (parse : String → Option (List String)) (persistId : Nat → Option String)
        (vErr : Option String),
        handleExercises db (some t) none userViews now shuffle call parse persistId vErr =
          .ok { batch := getRandomExercises shuffle
                  (getExercisesForTopic db t.id (getPromptHash t.prompt)) 10,
                viewsToUpdate := [], viewUpdateError := none }) ∧
    (∀ (db : List Exercise) (t : Topic)
        (userViews : String → Option UserExerciseView) (now : ℚ)
        (shuffle : List Exercise → List Exercise) (call : CallResult)
        (parse : String → Option (List String)) (persistId : Nat → Option String)
        (vErr : Option String),
        (getExercisesForTopic db t.id (getPromptHash t.prompt)).length ≤ 10 →
        handleExercises db (some t) none userViews now shuffle call parse persistId vErr =
          .ok { batch := getExercisesForTopic db t.id (getPromptHash t.prompt),
                viewsToUpdate := [], viewUpdateError := none }) := by
  refine ⟨?_, ?_, ?_⟩
  · intro db t userViews now shuffle c1 c2 p1 p2 pid1 pid2 vErr1 vErr2
    rw [handleExercises_anon, handleExercises_anon]
  · intro db t userViews now shuffle call parse persistId vErr
    exact handleExercises_anon db t userViews now shuffle call parse persistId vErr
  · intro db t userViews now shuffle call parse persistId vErr h
    rw [handleExercises_anon,
      getRandomExercises_all shuffle (getExercisesForTopic db t.id (getPromptHash t.prompt)) 10 h]

/-- Witness for C4: an empty cache is served as an empty batch with no
error, even while the generative service is down. -/
theorem anonymous_no_generation_witness :
    handleExercises [] (some topic1) none (fun _ => none) 0 id
        (CallResult.netError "down") (fun _ => none) (fun _ => none) none =
      .ok { batch := getExercisesForTopic [] topic1.id (getPromptHash topic1.prompt),
            viewsToUpdate := [], viewUpdateError := none } :=
  anonymous_no_generation.2.2 [] topic1 (fun _ => none) 0 id
    (CallResult.netError "down") (fun _ => none) (fun _ => none) none (by decide)

/-- C2: on the authenticated path generation is consulted iff the eligible
set from the cached population has fewer than 10 members (with 10 or more
the response is independent of the generative client); when triggered and
successful the new exercises are appended and eligibility is recomputed
over the enlarged population, and every newly generated exercise (having
no view record) belongs to that recomputed eligible set. -/
theorem cache_fill_trigger :
    (∀ (db : List Exercise) (t : Topic) (uid : String)
        (userViews : String → Option UserExerciseView) (now : ℚ)
        (shuffle : List Exercise → List Exercise) (vErr : Option String),
        10 ≤ (getEligibleExercisesForSRS
            (getExercisesForTopic db t.id (getPromptHash t.prompt)) userViews now).length →
        ∀ (c1 c2 : CallResult) (p1 p2 : String → Option (List String))
          (pid1 pid2 : Nat → Option String),
          handleExercises db (some t) (some uid) userViews now shuffle c1 p1 pid1 vErr =
            handleExercises db (some t) (some uid) userViews now shuffle c2 p2 pid2 vErr) ∧
    (∀ (db : List Exercise) (t : Topic) (uid : String)
        (userViews : String → Option UserExerciseView) (now : ℚ)
        (shuffle : List Exercise → List Exercise) (call : CallResult)
        (parse : String → Option (List String)) (persistId : Nat → Option String)
        (vErr : Option String) (newGen : List Exercise),
        (getEligibleExercisesForSRS
            (getExercisesForTopic db t.id (getPromptHash t.prompt)) userViews now).length < 10 →
        generateAndCacheExercises t call parse persistId = .ok newGen →
        handleExercises db (some t) (some uid) userViews now shuffle call parse persistId vErr =
          .ok { batch := getRandomExercises shuffle
                  (getEligibleExercisesForSRS
                    (getExercisesForTopic db t.id (getPromptHash t.prompt) ++ newGen)
                    userViews now) 10,
                viewsToUpdate := buildViewsToUpdate uid userViews now
                  (getRandomExercises shuffle
                    (getEligibleExercisesForSRS
                      (getExercisesForTopic db t.id (getPromptHash t.prompt) ++ newGen)
                      userViews now) 10),
                viewUpdateError := vErr }) ∧
    (∀ (allExercises newGen : List Exercise)
        (userViews : String → Option UserExerciseView) (now : ℚ),
        (∀ e ∈ newGen, userViews e.id = none) →
        ∀ e ∈ newGen, e ∈ getEligibleExercisesForSRS (allExercises ++ newGen) userViews now) := by
  refine ⟨?_, ?_, ?_⟩
  · intro db t uid userViews now shuffle vErr h c1 c2 p1 p2 pid1 pid2
    have h' : ¬ (getEligibleExercisesForSRS
        (getExercisesForTopic db t.id (getPromptHash t.prompt)) userViews now).length < 10 := by
      omega
    rw [handleExercises_auth_enough db t uid userViews now shuffle c1 p1 pid1 vErr h',
      handleExercises_auth_enough db t uid userViews now shuffle c2 p2 pid2 vErr h']
  · intro db t uid userViews now shuffle call parse persistId vErr newGen h hgen
    exact handleExercises_auth_gen_ok db t uid userViews now shuffle call parse
      persistId vErr newGen h hgen
  · intro allExercises newGen userViews now hfresh e he
    exact (mem_getEligible_iff (allExercises ++ newGen) userViews now e).mpr
      ⟨List.mem_append_right allExercises he, Or.inl (hfresh e he)⟩

/-- Witness for C2: with 10 fresh cached exercises the response is the
same whether the generative service is down or answering; with an empty
cache a successful generation is appended and served; a concrete new
exercise is eligible on recomputation. -/
theorem cache_fill_trigger_witness :
    (handleExercises dbTen (some topic1) (some "u1") (fun _ => none) 0 id
        (CallResult.netError "down") (fun _ => none) (fun _ => none) none =
      handleExercises dbTen (some topic1) (some "u1") (fun _ => none) 0 id
        (CallResult.response ⟨[⟨⟨"c"⟩⟩], none⟩) (fun _ => some []) (fun _ => none) none) ∧
    (handleExercises [] (some topic1) (some "u1") (fun _ => none) 0 id
        (CallResult.response ⟨[⟨⟨"c"⟩⟩], none⟩) (fun _ => some ["x1"])
        (fun _ => some "n0") none =
      .ok { batch := getRandomExercises id
              (getEligibleExercisesForSRS
                (getExercisesForTopic [] topic1.id (getPromptHash topic1.prompt) ++
                  [⟨"n0", topic1.id, getPromptHash topic1.prompt, "x1"⟩])
                (fun _ => none) 0) 10,
            viewsToUpdate := buildViewsToUpdate "u1" (fun _ => none) 0
              (getRandomExercises id
                (getEligibleExercisesForSRS
                  (getExercisesForTopic [] topic1.id (getPromptHash topic1.prompt) ++
                    [⟨"n0", topic1.id, getPromptHash topic1.prompt, "x1"⟩])
                  (fun _ => none) 0) 10),
            viewUpdateError := none }) ∧
    ex1 ∈ getEligibleExercisesForSRS ([] ++ [ex1]) (fun _ => none) 0 :=
  ⟨cache_fill_trigger.1 dbTen topic1 "u1" (fun _ => none) 0 id none
      (by rw [dbTen_matches, getEligible_no_views, dbTen_length])
      (CallResult.netError "down") (CallResult.response ⟨[⟨⟨"c"⟩⟩], none⟩)
      (fun _ => none) (fun _ => some []) (fun _ => none) (fun _ => none),
   cache_fill_trigger.2.1 [] topic1 "u1" (fun _ => none) 0 id
      (CallResult.response ⟨[⟨⟨"c"⟩⟩], none⟩) (fun _ => some ["x1"])
      (fun _ => some "n0") none
      [⟨"n0", topic1.id, getPromptHash topic1.prompt, "x1"⟩] (by decide) rfl,
   cache_fill_trigger.2.2 [] [ex1] (fun _ => none) 0 (fun e _ => rfl) ex1
      (List.mem_singleton.mpr rfl)⟩

/-- C7: every outright failure of the generative call — transport error,
typed API error, empty choice list, empty message content, unparseable
content — makes `generateAndCacheExercises` fail, and when the cache-fill
path is active that failure fails the whole request with no batch. -/
theorem generation_failure_fatal :
    (∀ (t : Topic) (parse : String → Option (List String))
        (persistId : Nat → Option String) (m : String),
        generateAndCacheExercises t (.netError m) parse persistId =
          .error ("failed to call OpenAI API: " ++ m)) ∧
    (∀ (t : Topic) (resp : OpenAIResponse) (parse : String → Option (List String))
        (persistId : Nat → Option String) (err : APIError),
        resp.error = some err →
        generateAndCacheExercises t (.response resp) parse persistId =
          .error ("API error: " ++ err.message)) ∧
    (∀ (t : Topic) (resp : OpenAIResponse) (parse : String → Option (List String))
        (persistId : Nat → Option String),
        resp.error = none → resp.choices = [] →
        generateAndCacheExercises t (.response resp) parse persistId =
          .error "received an empty response from OpenAI") ∧
    (∀ (t : Topic) (resp : OpenAIResponse) (parse : String → Option (List String))
        (persistId : Nat → Option String) (choice : Choice) (rest : List Choice),
        resp.error = none → resp.choices = choice :: rest →
        choice.message.content = "" →
        generateAndCacheExercises t (.response resp) parse persistId =
          .error "received an empty response from OpenAI") ∧
    (∀ (t : Topic) (resp : OpenAIResponse) (parse : String → Option (List String))
        (persistId : Nat → Option String) (choice : Choice) (rest : List Choice),
        resp.error = none → resp.choices = choice :: rest →
        choice.message.content ≠ "" → parse choice.message.content = none →
        generateAndCacheExercises t (.response resp) parse persistId =
          .error "failed to parse exercises from OpenAI response") ∧
    (∀ (db : List Exercise) (t : Topic) (uid : String)
        (userViews : String → Option UserExerciseView) (now : ℚ)
        (shuffle : List Exercise → List Exercise) (call : CallResult)
        (parse : String → Option (List String)) (persistId : Nat → Option String)
        (vErr : Option String) (e : String),
        (getEligibleExercisesForSRS
            (getExercisesForTopic db t.id (getPromptHash t.prompt)) userViews now).length < 10 →
        generateAndCacheExercises t call parse persistId = .error e →
        handleExercises db (some t) (some uid) userViews now shuffle call parse persistId vErr =
          .error ("Failed to generate exercises: " ++ e)) := by
  refine ⟨fun t parse persistId m => rfl, ?_, ?_, ?_, ?_, ?_⟩
  · intro t resp parse persistId err herr
    obtain ⟨choices, error⟩ := resp
    cases herr
    rfl
  · intro t resp parse persistId herr hch
    obtain ⟨choices, error⟩ := resp
    cases herr
    cases hch
    rfl
  · intro t resp parse persistId choice rest herr hch hc
    obtain ⟨choices, error⟩ := resp
    cases herr
    cases hch
    show (if choice.message.content = "" then _ else _) = _
    rw [if_pos hc]
  · intro t resp parse persistId choice rest herr hch hc hp
    obtain ⟨choices, error⟩ := resp
    cases herr
    cases hch
    show (if choice.message.content = "" then _ else _) = _
    rw [if_neg hc, hp]
  · intro db t uid userViews now shuffle call parse persistId vErr e h hgen
    exact handleExercises_auth_gen_err db t uid userViews now shuffle call parse
      persistId vErr e h hgen

/-- Witness for C7: each failure mode at a concrete input, and a concrete
request that fails whole when generation fails. -/
theorem generation_failure_fatal_witness :
    (generateAndCacheExercises topic1 (.netError "down") (fun _ => none) (fun _ => none) =
      .error ("failed to call OpenAI API: " ++ "down")) ∧
    (generateAndCacheExercises topic1
        (.response ⟨[], some ⟨"quota exceeded", "insufficient_quota", "429"⟩⟩)
        (fun _ => none) (fun _ => none) =
      .error ("API error: " ++ "quota exceeded")) ∧
    (generateAndCacheExercises topic1 (.response ⟨[], none⟩)
        (fun _ => none) (fun _ => none) =
      .error "received an empty response from OpenAI") ∧
    (generateAndCacheExercises topic1 (.response ⟨[⟨⟨""⟩⟩], none⟩)
        (fun _ => none) (fun _ => none) =
      .error "received an empty response from OpenAI") ∧
    (generateAndCacheExercises topic1 (.response ⟨[⟨⟨"not json"⟩⟩], none⟩)
        (fun _ => none) (fun _ => none) =
      .error "failed to parse exercises from OpenAI response") ∧
    (handleExercises [] (some topic1) (some "u1") (fun _ => none) 0 id
        (.netError "down") (fun _ => none) (fun _ => none) none =
      .error ("Failed to generate exercises: " ++ ("failed to call OpenAI API: " ++ "down"))) :=
  ⟨generation_failure_fatal.1 topic1 (fun _ => none) (fun _ => none) "down",
   generation_failure_fatal.2.1 topic1
     ⟨[], some ⟨"quota exceeded", "insufficient_quota", "429"⟩⟩
     (fun _ => none) (fun _ => none) ⟨"quota exceeded", "insufficient_quota", "429"⟩ rfl,
   generation_failure_fatal.2.2.1 topic1 ⟨[], none⟩ (fun _ => none) (fun _ => none)
     rfl rfl,
   generation_failure_fatal.2.2.2.1 topic1 ⟨[⟨⟨""⟩⟩], none⟩ (fun _ => none)
     (fun _ => none) ⟨⟨""⟩⟩ [] rfl rfl rfl,
   generation_failure_fatal.2.2.2.2.1 topic1 ⟨[⟨⟨"not json"⟩⟩], none⟩ (fun _ => none)
     (fun _ => none) ⟨⟨"not json"⟩⟩ [] rfl rfl (by decide) rfl,
   generation_failure_fatal.2.2.2.2.2 [] topic1 "u1" (fun _ => none) 0 id
     (.netError "down") (fun _ => none) (fun _ => none) none
     ("failed to call OpenAI API: " ++ "down") (by decide) rfl⟩

/-- C8: the response of `handleExercises` — both its success status and the
batch it carries — does not depend on the outcome of the
`updateUserExerciseViews` upsert; a failed view-history write is only
recorded (logged), never surfaced. -/
theorem view_update_failure_nonfatal :
    ∀ (db : List Exercise) (topicResult : Option Topic) (userID : Option String)
      (userViews : String → Option UserExerciseView) (now : ℚ)
      (shuffle : List Exercise → List Exercise) (call : CallResult)
      (parse : String → Option (List String)) (persistId : Nat → Option String)
      (e1 e2 : Option String),
      (handleExercises db topicResult userID userViews now shuffle call parse
            persistId e1).map ExerciseBatchResult.batch =
        (handleExercises db topicResult userID userViews now shuffle call parse
            persistId e2).map ExerciseBatchResult.batch ∧
      ∀ msg : String,
        (handleExercises db topicResult userID userViews now shuffle call parse
            persistId e1 = .error msg ↔
          handleExercises db topicResult userID userViews now shuffle call parse
            persistId e2 = .error msg) := by
  intro db topicResult userID userViews now shuffle call parse persistId e1 e2
  cases topicResult with
  | none => exact ⟨rfl, fun msg => Iff.rfl⟩
  | some t =>
    cases userID with
    | none => rw [handleExercises_anon, handleExercises_anon]; exact ⟨rfl, fun msg => Iff.rfl⟩
    | some uid =>
      by_cases h : (getEligibleExercisesForSRS
          (getExercisesForTopic db t.id (getPromptHash t.prompt)) userViews now).length < 10
      · cases hgen : generateAndCacheExercises t call parse persistId with
        | error e =>
          rw [handleExercises_auth_gen_err db t uid userViews now shuffle call parse
              persistId e1 e h hgen,
            handleExercises_auth_gen_err db t uid userViews now shuffle call parse
              persistId e2 e h hgen]
          exact ⟨rfl, fun msg => Iff.rfl⟩
        | ok newGen =>
          rw [handleExercises_auth_gen_ok db t uid userViews now shuffle call parse
              persistId e1 newGen h hgen,
            handleExercises_auth_gen_ok db t uid userViews now shuffle call parse
              persistId e2 newGen h hgen]
          refine ⟨rfl, fun msg => ?_⟩
          constructor <;> intro hx <;> cases hx
      · rw [handleExercises_auth_enough db t uid userViews now shuffle call parse
            persistId e1 h,
          handleExercises_auth_enough db t uid userViews now shuffle call parse
            persistId e2 h]
        refine ⟨rfl, fun msg => ?_⟩
        constructor <;> intro hx <;> cases hx

/-- Every exercise persisted by the generation loop carries the current
prompt hash. -/
theorem mem_cacheNewExercises (t : Topic) (persistId : Nat → Option String)
    (payloads : List String) :
    ∀ e ∈ cacheNewExercises t persistId payloads,
      e.promptHash = getPromptHash t.prompt ∧ e.topicID = t.id := by
  intro e he
  simp only [cacheNewExercises, List.mem_filterMap, Option.map_eq_some'] at he
  obtain ⟨p, -, newId, -, he⟩ := he
  subst he
  exact ⟨rfl, rfl⟩

/-- A successful generation is exactly the persisted payload list. -/
theorem generateAndCacheExercises_ok (t : Topic) (call : CallResult)
    (parse : String → Option (List String)) (persistId : Nat → Option String)
    (newGen : List Exercise)
    (hgen : generateAndCacheExercises t call parse persistId = .ok newGen) :
    ∃ payloads, newGen = cacheNewExercises t persistId payloads := by
  cases call with
  | netError m => cases hgen
  | response resp =>
    obtain ⟨choices, error⟩ := resp
    cases error with
    | some err => cases hgen
    | none =>
      cases choices with
      | nil => cases hgen
      | cons choice rest =>
        by_cases hc : choice.message.content = ""
        · rw [show generateAndCacheExercises t
              (.response ⟨choice :: rest, none⟩) parse persistId =
              (if choice.message.content = "" then
                Except.error "received an empty response from OpenAI"
              else
                match parse choice.message.content with
                | none => Except.error "failed to parse exercises from OpenAI response"
                | some payloads => Except.ok (cacheNewExercises t persistId payloads))
              from rfl, if_pos hc] at hgen
          cases hgen
        · rw [show generateAndCacheExercises t
              (.response ⟨choice :: rest, none⟩) parse persistId =
              (if choice.message.content = "" then
                Except.error "received an empty response from OpenAI"
              else
                match parse choice.message.content with
                | none => Except.error "failed to parse exercises from OpenAI response"
                | some payloads => Except.ok (cacheNewExercises t persistId payloads))
              from rfl, if_neg hc] at hgen
          cases hp : parse choice.message.content with
          | none => rw [hp] at hgen; cases hgen
          | some payloads =>
            rw [hp] at hgen
            cases hgen
            exact ⟨payloads, rfl⟩

/-- C3: every exercise in a returned batch — cached (filtered by the
query) or newly generated (tagged at persistence) — carries the SHA-256
hex hash of the topic's current prompt, so exercises generated under a
superseded prompt never appear. -/
theorem batch_prompt_hash_invariant :
    (∀ (db : List Exercise) (tid h : String),
        ∀ e ∈ getExercisesForTopic db tid h, e.promptHash = h) ∧
    (∀ (t : Topic) (call : CallResult) (parse : String → Option (List String))
        (persistId : Nat → Option String) (newGen : List Exercise),
        generateAndCacheExercises t call parse persistId = .ok newGen →
        ∀ e ∈ newGen, e.promptHash = getPromptHash t.prompt) ∧
    (∀ (db : List Exercise) (t : Topic) (userID : Option String)
        (userViews : String → Option UserExerciseView) (now : ℚ)
        (shuffle : List Exercise → List Exercise),
        (∀ l, (shuffle l).Perm l) →
        ∀ (call : CallResult) (parse : String → Option (List String))
          (persistId : Nat → Option String) (vErr : Option String)
          (r : ExerciseBatchResult),
          handleExercises db (some t) userID userViews now shuffle call parse
              persistId vErr = .ok r →
          ∀ e ∈ r.batch, e.promptHash = getPromptHash t.prompt) := by
  have hcache : ∀ (db : List Exercise) (tid h : String),
      ∀ e ∈ getExercisesForTopic db tid h, e.promptHash = h := by
    intro db tid h e he
    have := (List.mem_filter.mp he).2
    simp only [Bool.and_eq_true, beq_iff_eq] at this
    exact this.2
  have hgenok : ∀ (t : Topic) (call : CallResult)
      (parse : String → Option (List String)) (persistId : Nat → Option String)
      (newGen : List Exercise),
      generateAndCacheExercises t call parse persistId = .ok newGen →
      ∀ e ∈ newGen, e.promptHash = getPromptHash t.prompt := by
    intro t call parse persistId newGen hgen e he
    obtain ⟨payloads, rfl⟩ :=
      generateAndCacheExercises_ok t call parse persistId newGen hgen
    exact (mem_cacheNewExercises t persistId payloads e he).1
  refine ⟨hcache, hgenok, ?_⟩
  intro db t userID userViews now shuffle hs call parse persistId vErr r hr e he
  cases userID with
  | none =>
    rw [handleExercises_anon] at hr
    cases hr
    exact hcache db t.id (getPromptHash t.prompt) e
      (getRandomExercises_subset shuffle hs _ 10 e he)
  | some uid =>
    by_cases h : (getEligibleExercisesForSRS
        (getExercisesForTopic db t.id (getPromptHash t.prompt)) userViews now).length < 10
    · cases hgen : generateAndCacheExercises t call parse persistId with
      | error err =>
        rw [handleExercises_auth_gen_err db t uid userViews now shuffle call parse
          persistId vErr err h hgen] at hr
        cases hr
      | ok newGen =>
        rw [handleExercises_auth_gen_ok db t uid userViews now shuffle call parse
          persistId vErr newGen h hgen] at hr
        cases hr
        have hmem := (mem_getEligible_iff _ userViews now e).mp
          (getRandomExercises_subset shuffle hs _ 10 e he)
        rcases List.mem_append.mp hmem.1 with hc | hg
        · exact hcache db t.id (getPromptHash t.prompt) e hc
        · exact hgenok t call parse persistId newGen hgen e hg
    · rw [handleExercises_auth_enough db t uid userViews now shuffle call parse
        persistId vErr h] at hr
      cases hr
      have hmem := (mem_getEligible_iff _ userViews now e).mp
        (getRandomExercises_subset shuffle hs _ 10 e he)
      exact hcache db t.id (getPromptHash t.prompt) e hmem.1

/-- Witness for C3: concrete cached and generated exercises all carry the
current prompt hash. -/
theorem batch_prompt_hash_invariant_witness :
    (∀ e ∈ getExercisesForTopic
        [⟨"e1", "t1", "h1", "{}"⟩, ⟨"e9", "t1", "old", "{}"⟩] "t1" "h1",
      e.promptHash = "h1") ∧
    (∀ e ∈ [Exercise.mk "n0" topic1.id (getPromptHash topic1.prompt) "x1"],
      e.promptHash = getPromptHash topic1.prompt) ∧
    (∀ e ∈ (ExerciseBatchResult.mk
        [⟨"n0", topic1.id, getPromptHash topic1.prompt, "x1"⟩]
        [⟨"", "u1", "n0", 0, 1⟩] none).batch,
      e.promptHash = getPromptHash topic1.prompt) :=
  ⟨batch_prompt_hash_invariant.1
      [⟨"e1", "t1", "h1", "{}"⟩, ⟨"e9", "t1", "old", "{}"⟩] "t1" "h1",
   batch_prompt_hash_invariant.2.1 topic1 (CallResult.response ⟨[⟨⟨"c"⟩⟩], none⟩)
     (fun _ => some ["x1"]) (fun _ => some "n0")
     [Exercise.mk "n0" topic1.id (getPromptHash topic1.prompt) "x1"] rfl,
   batch_prompt_hash_invariant.2.2 [] topic1 (some "u1") (fun _ => none) 0 id
     (fun l => List.Perm.refl l) (CallResult.response ⟨[⟨⟨"c"⟩⟩], none⟩)
     (fun _ => some ["x1"]) (fun _ => some "n0") none
     (ExerciseBatchResult.mk
        [⟨"n0", topic1.id, getPromptHash topic1.prompt, "x1"⟩]
        [⟨"", "u1", "n0", 0, 1⟩] none) rfl⟩


/-- Field postconditions of a single updated view record. -/
theorem updatedView_fields (uid : String)
    (userViews : String → Option UserExerciseView) (now : ℚ) (ex : Exercise)
    (hwf : wellFormedViews uid userViews) :
    (updatedView uid userViews now ex).userID = uid ∧
    (updatedView uid userViews now ex).exerciseID = ex.id ∧
    (updatedView uid userViews now ex).lastViewed = now ∧
    (updatedView uid userViews now ex).repetitionCounter =
      (match userViews ex.id with
        | none => 0
        | some p => p.repetitionCounter) + 1 ∧
    ∀ p, userViews ex.id = some p → (updatedView uid userViews now ex).id = p.id := by
  unfold updatedView
  cases hv : userViews ex.id with
  | none => exact ⟨rfl, rfl, rfl, by simp, fun p hp => by cases hp⟩
  | some pv =>
    refine ⟨(hwf ex.id pv hv).1, (hwf ex.id pv hv).2, rfl, rfl, fun p hp => ?_⟩
    cases hp
    rfl

/-- C6: for every exercise of the batch returned to an identified user,
exactly one view record keyed on `(user_id, exercise_id)` is found or
created (an existing record keeps its row ID, so the upsert updates rather
than duplicates), with `last_viewed = now` and the repetition counter
incremented by exactly 1 over its previous value (0 when no record
existed, so 1 after the first serving). -/
theorem view_history_update_postcondition :
    ∀ (uid : String) (userViews : String → Option UserExerciseView) (now : ℚ)
      (finalExercises : List Exercise), wellFormedViews uid userViews →
      List.Forall₂ (fun (ex : Exercise) (v : UserExerciseView) =>
          v.userID = uid ∧ v.exerciseID = ex.id ∧ v.lastViewed = now ∧
          v.repetitionCounter =
            (match userViews ex.id with
              | none => 0
              | some p => p.repetitionCounter) + 1 ∧
          ∀ p, userViews ex.id = some p → v.id = p.id)
        finalExercises (buildViewsToUpdate uid userViews now finalExercises) ∧
      ((finalExercises.map Exercise.id).Nodup →
        ∀ ex ∈ finalExercises,
          ∃! v, v ∈ buildViewsToUpdate uid userViews now finalExercises ∧
            v.exerciseID = ex.id) := by
  intro uid userViews now final hwf
  constructor
  · rw [buildViewsToUpdate, List.forall₂_map_right_iff, List.forall₂_same]
    intro ex _
    exact updatedView_fields uid userViews now ex hwf
  · intro hnodup ex hex
    refine ⟨updatedView uid userViews now ex,
      ⟨List.mem_map_of_mem (updatedView uid userViews now) hex,
        (updatedView_fields uid userViews now ex hwf).2.1⟩, ?_⟩
    rintro v' ⟨hv'mem, hv'eid⟩
    rw [buildViewsToUpdate] at hv'mem
    obtain ⟨ex', hex', rfl⟩ := List.mem_map.mp hv'mem
    have hid : ex'.id = ex.id := by
      rw [← (updatedView_fields uid userViews now ex' hwf).2.1]
      exact hv'eid
    have hee : ex' = ex := List.inj_on_of_nodup_map hnodup hex' hex hid
    rw [hee]

/-- Witness for C6 at a two-exercise batch (one previously seen with
counter 2, one new): the produced record list pairs up with the batch and
the seen exercise has exactly one record. -/
theorem view_history_update_postcondition_witness :
    (buildViewsToUpdate "u1" (singleView (view1 2)) 0 [ex1, ex2]).length =
        ([ex1, ex2] : List Exercise).length ∧
    (∃! v, v ∈ buildViewsToUpdate "u1" (singleView (view1 2)) 0 [ex1, ex2] ∧
      v.exerciseID = ex1.id) := by
  have hwf : wellFormedViews "u1" (singleView (view1 2)) := by
    intro id v hv
    by_cases hid : id = "e1"
    · rw [show singleView (view1 2) id = if id = "e1" then some (view1 2) else none
        from rfl, if_pos hid] at hv
      cases hv
      exact ⟨rfl, hid.symm⟩
    · rw [show singleView (view1 2) id = if id = "e1" then some (view1 2) else none
        from rfl, if_neg hid] at hv
      cases hv
  have T := view_history_update_postcondition "u1" (singleView (view1 2)) 0
    [ex1, ex2] hwf
  exact ⟨(T.1.length_eq).symm, T.2 (by decide) ex1 (by decide)⟩

/-- In an ascending version list every element's number is at most the
last one's. -/
theorem pairwise_version_le_getLast :
    ∀ (l : List PromptVersion),
      l.Pairwise (fun a b => a.version < b.version) →
      ∀ a ∈ l, ∀ last, l.getLast? = some last → a.version ≤ last.version := by
  intro l
  induction l with
  | nil => intro _ a ha; cases ha
  | cons x xs ih =>
    intro hp a ha last hlast
    rcases List.pairwise_cons.mp hp with ⟨hx, hxs⟩
    cases xs with
    | nil =>
      cases hlast
      rcases List.mem_singleton.mp ha with rfl
      exact le_refl _
    | cons y ys =>
      rw [List.getLast?_cons_cons] at hlast
      rcases List.mem_cons.mp ha with rfl | hmem
      · obtain ⟨hne, hl⟩ := List.mem_getLast?_eq_getLast hlast
        exact le_of_lt (hx last (hl ▸ List.getLast_mem hne))
      · exact ih hxs a hmem last hlast

/-- The appended list is still strictly ascending: the new sequence number
is one past the maximum. -/
theorem pairwise_addPromptVersion (versions : List PromptVersion)
    (newId topicID prompt : String)
    (hp : versions.Pairwise (fun a b => a.version < b.version)) :
    (addPromptVersion versions newId topicID prompt).Pairwise
      (fun a b => a.version < b.version) := by
  rw [addPromptVersion, List.pairwise_append]
  refine ⟨hp, List.pairwise_singleton _ _, ?_⟩
  intro a ha b hb
  rcases List.mem_singleton.mp hb with rfl
  show a.version < (newPromptVersion versions newId topicID prompt).version
  unfold newPromptVersion
  cases hl : versions.getLast? with
  | none =>
    rw [List.getLast?_eq_none_iff] at hl
    rw [hl] at ha
    cases ha
  | some last =>
    have := pairwise_version_le_getLast versions hp a ha last hl
    simp only
    omega

/-- C9: a topic update appends a new prompt version (sequence number one
past the previous last) and then deletes exactly the versions older than
the 10 most recent: afterwards at most 10 remain, they are a suffix of the
appended ascending list, the new version is among them, and (for an
ascending store) every deleted version is strictly older than every
retained one. -/
theorem prompt_version_window :
    ∀ (versions : List PromptVersion) (newId topicID prompt : String),
      (updateTopicVersions versions newId topicID prompt).length =
          min (versions.length + 1) 10 ∧
      (updateTopicVersions versions newId topicID prompt).length ≤ 10 ∧
      updateTopicVersions versions newId topicID prompt <:+
          addPromptVersion versions newId topicID prompt ∧
      newPromptVersion versions newId topicID prompt ∈
          updateTopicVersions versions newId topicID prompt ∧
      (versions.Pairwise (fun a b => a.version < b.version) →
        ∀ d ∈ addPromptVersion versions newId topicID prompt,
          d ∉ updateTopicVersions versions newId topicID prompt →
          ∀ r ∈ updateTopicVersions versions newId topicID prompt,
            d.version < r.version) := by
  intro versions newId topicID prompt
  have happlen : (addPromptVersion versions newId topicID prompt).length =
      versions.length + 1 := by
    rw [addPromptVersion]
    simp
  by_cases hlen : (addPromptVersion versions newId topicID prompt).length > 10
  · have hupd : updateTopicVersions versions newId topicID prompt =
        (addPromptVersion versions newId topicID prompt).drop
          ((addPromptVersion versions newId topicID prompt).length - 10) := by
      rw [updateTopicVersions, pruneOldVersions, if_pos hlen]
    have hk : (addPromptVersion versions newId topicID prompt).length - 10 ≤
        versions.length := by omega
    have hdroplen : (updateTopicVersions versions newId topicID prompt).length = 10 := by
      rw [hupd, List.length_drop]
      omega
    have hlen' : versions.length + 1 > 10 := by omega
    refine ⟨by omega, by omega, hupd ▸ List.drop_suffix _ _, ?_, ?_⟩
    · rw [hupd, addPromptVersion, List.drop_append_eq_append_drop,
        show ((versions ++ [newPromptVersion versions newId topicID prompt]).length - 10) -
          versions.length = 0 by simp [List.length_append], List.drop_zero]
      exact List.mem_append_right _ (List.mem_singleton.mpr rfl)
    · intro hp d hd hdnot r hr
      have hpapp := pairwise_addPromptVersion versions newId topicID prompt hp
      rw [← List.take_append_drop
        ((addPromptVersion versions newId topicID prompt).length - 10)
        (addPromptVersion versions newId topicID prompt)] at hpapp hd
      have hcross := (List.pairwise_append.mp hpapp).2.2
      rcases List.mem_append.mp hd with hdt | hdd
      · exact hcross d hdt r (hupd ▸ hr)
      · exact absurd (hupd ▸ hdd) hdnot
  · have hupd : updateTopicVersions versions newId topicID prompt =
        addPromptVersion versions newId topicID prompt := by
      rw [updateTopicVersions, pruneOldVersions, if_neg hlen]
    refine ⟨by rw [hupd, happlen]; omega, by rw [hupd, happlen]; omega,
      hupd ▸ List.suffix_refl _, ?_, ?_⟩
    · rw [hupd, addPromptVersion]
      exact List.mem_append_right _ (List.mem_singleton.mpr rfl)
    · intro hp d hd hdnot r hr
      exact absurd (hupd ▸ hd) hdnot

/-- Witness for C9: updating a topic that already has 11 ascending
versions keeps exactly the 10 most recent, the new version included, and
every dropped version is older than every kept one. -/
theorem prompt_version_window_witness :
    (updateTopicVersions sampleVersions "pv11" "t1" "q").length =
        min (sampleVersions.length + 1) 10 ∧
    newPromptVersion sampleVersions "pv11" "t1" "q" ∈
        updateTopicVersions sampleVersions "pv11" "t1" "q" ∧
    (∀ d ∈ addPromptVersion sampleVersions "pv11" "t1" "q",
      d ∉ updateTopicVersions sampleVersions "pv11" "t1" "q" →
      ∀ r ∈ updateTopicVersions sampleVersions "pv11" "t1" "q",
        d.version < r.version) := by
  have T := prompt_version_window sampleVersions "pv11" "t1" "q"
  exact ⟨T.1, T.2.2.2.1, T.2.2.2.2 (by decide)⟩
